import Mathlib

set_option linter.unusedVariables false

/-!
Verification of the plasma-meter sweep protocol and diagnostics engine.

Shallow embedding of the repository's measurement driver (`plasma_meter/server.py`),
acquisition client (`plasma_meter/client.py`) and SLP diagnostics engine
(`plasma_meter/calculations.py`).

Modelling conventions:
- Python floats carried through the protocol (ramp voltages, currents) are modelled
  as rationals `ℚ`; the diagnostics formulas, which involve `log`, `sqrt`, `e` and `π`,
  are modelled over the reals `ℝ`.
- A value that Python computes as a non-finite float (`nan` from `np.log` of a
  non-positive number, `inf` from a numpy division by zero) is modelled as `none`
  in `Option ℝ`; finite values are `some x`.
- A Python exception (`ZeroDivisionError`, `ValueError`, `AttributeError`) is
  modelled as `Except.error` with the exception text.
- Timestamps (`datetime` values) are opaque: they are carried as the strings that
  encode them and never computed with.
-/

/-! ### Python `str.split` / `float(str)` and the CSV wire encoding

The shared OPC-UA nodes `current_measurements`, `time_measurements` and
`voltage_ramp` hold comma-joined string encodings; both sides split on `','`
and convert tokens with `float(...)` / `strptime(...)`. Splitting is modelled
by structural recursion over the character list; it agrees with Python
`str.split(sep)` (in particular `''.split(',') == ['']`). -/

/-- Python `s.split(sep)` for a one-character separator, over character lists. -/
def splitOnChar (sep : Char) : List Char → List (List Char)
  | [] => [[]]
  | c :: cs =>
    let r := splitOnChar sep cs
    if c = sep then [] :: r
    else
      match r with
      | [] => [[c]]
      | t :: ts => (c :: t) :: ts

/-- Python `s.split(sep)` on strings (token list as strings). -/
def pySplit (sep : Char) (s : String) : List String :=
  (splitOnChar sep s.toList).map (fun cs => String.mk cs)

/-- Numeric value of a digit string (most significant first). -/
def digitsToNat (cs : List Char) : ℕ :=
  cs.foldl (fun a c => a * 10 + (c.toNat - 48)) 0

/-- All characters are decimal digits. -/
def isDigits (cs : List Char) : Bool :=
  cs.all Char.isDigit

/-- Conversion of the unsigned part of a `float(x)` literal: digits with an
optional fractional part, at least one digit in total. -/
def pyFloatBody (sign : ℚ) (body : List Char) (orig : String) : Except String ℚ :=
  let err : Except String ℚ :=
    .error ("ValueError: could not convert string to float: " ++ orig)
  match splitOnChar '.' body with
  | [ip] =>
      if 0 < ip.length && isDigits ip then
        .ok (sign * (digitsToNat ip : ℚ))
      else err
  | [ip, fp] =>
      if 0 < ip.length + fp.length && isDigits ip && isDigits fp then
        .ok (sign * ((digitsToNat ip : ℚ) +
          (digitsToNat fp : ℚ) / (10 : ℚ) ^ fp.length))
      else err
  | _ => err

/-- Model of Python `float(x)` on plain decimal literals (optional sign, digits,
optional fractional part). `float('')` and non-numeric tokens raise `ValueError`.
(The model covers the decimal forms exchanged by this protocol; exponent
notation is outside its scope and is not exercised by any theorem below.) -/
def pyFloat (s : String) : Except String ℚ :=
  match s.toList with
  | [] => pyFloatBody 1 [] s
  | c :: rest =>
    if c = '-' then pyFloatBody (-1) rest s
    else if c = '+' then pyFloatBody 1 rest s
    else pyFloatBody 1 (c :: rest) s

/-- Sequencing of fallible per-token conversions, as in a Python list
comprehension: the first failing token raises. -/
def mapExcept (f : α → Except String β) : List α → Except String (List β)
  | [] => .ok []
  | a :: as =>
    match f a, mapExcept f as with
    | .ok b, .ok bs => .ok (b :: bs)
    | .error e, _ => .error e
    | .ok _, .error e => .error e

/-- `[float(v) for v in tokens]`. -/
def parse_float_list (tokens : List String) : Except String (List ℚ) :=
  mapExcept pyFloat tokens

/-! ### The sweep driver (`DataServer.__run_SLP_measurements`, `server.py` 261-344) -/

/-- Outcome of one SLP sweep: the published current samples, the published
timestamp samples (both decoded from the growing comma-joined node strings the
driver republishes after every sample), and the `is_measurements_finished` flag. -/
structure SLPRun where
  currents : List ℚ
  times : List String
  finished : Bool

/-- Current sensing resistor of the Single Langmuir Probe (`server.py` 275). -/
def shunt_resistor : ℚ := 200

/-- The `for voltage in voltages` loop of the `current_filter == 'None'` branch
(`server.py` 287-307): each step first reads the (time-varying) abort node —
`abort_measurements k` is the value observed at the `k`-th check — and breaks if
it is set; otherwise it sleeps, computes `current = (voltage * -2.0) / shunt_resistor`
and appends the current and the clock reading to the published lists. -/
def slpLoopNone (clock : ℕ → String) (abort_measurements : ℕ → Bool) :
    List ℚ → ℕ → List ℚ × List String
  | [], _ => ([], [])
  | voltage :: vs, k =>
    if abort_measurements k then ([], [])
    else
      let rest := slpLoopNone clock abort_measurements vs (k + 1)
      ((voltage * -2) / shunt_resistor :: rest.1, clock k :: rest.2)

/-- `DataServer.__run_SLP_measurements` (`server.py` 261-344).
`number_of_measurements = float(len(voltage_ramp))` is the length of the CSV
*string* held by the ramp node; it is zero exactly when the ramp is empty, and
`step_time = voltage_sweep_time / number_of_measurements` then raises
`ZeroDivisionError` (modelled by the explicit zero test guarding the division).
`step_time` otherwise only paces `asyncio.sleep` and has no further effect here.
The `'SOS'` branch evaluates `voltages.split(',')` on a list, an `AttributeError`.
Any other filter string prints an error and falls through, still setting
`is_measurements_finished = True` with empty lists. -/
def run_SLP_measurements (voltage_sweep_time : ℚ) (voltage_ramp : String)
    (current_filter : String) (abort_measurements : ℕ → Bool) (clock : ℕ → String) :
    Except String SLPRun :=
  let number_of_measurements : ℚ := (voltage_ramp.length : ℚ)
  if number_of_measurements = 0 then
    .error "ZeroDivisionError: float division by zero"
  else
    match parse_float_list (pySplit ',' voltage_ramp) with
    | .error e => .error e
    | .ok voltages =>
      if current_filter = "None" then
        let r := slpLoopNone clock abort_measurements voltages 0
        .ok ⟨r.1, r.2, true⟩
      else if current_filter = "SOS" then
        .error "AttributeError: list object has no attribute split"
      else
        .ok ⟨[], [], true⟩

/-! ### The acquisition client decode (`DataClient`, `client.py` 258-319) -/

/-- Structural model of `datetime.datetime.strptime(x, '%Y-%m-%d %H:%M:%S.%f')`:
accepts `YYYY-MM-DD HH:MM:SS.f` with four/two/two digit date fields, two digit
time fields and a 1-6 digit fractional part, and raises `ValueError` otherwise
(in particular on the empty string). Calendar range checks of the library call
are not modelled; no theorem below depends on them. -/
def strptime_datetime (s : String) : Except String String :=
  let okFormat : Bool :=
    match splitOnChar ' ' s.toList with
    | [d, t] =>
      (match splitOnChar '-' d with
       | [y, mo, da] =>
         y.length == 4 && mo.length == 2 && da.length == 2 &&
           isDigits y && isDigits mo && isDigits da
       | _ => false) &&
      (match splitOnChar ':' t with
       | [h, mi, sec] =>
         h.length == 2 && mi.length == 2 && isDigits h && isDigits mi &&
           (match splitOnChar '.' sec with
            | [ss, fr] =>
              ss.length == 2 && isDigits ss &&
                decide (1 ≤ fr.length) && decide (fr.length ≤ 6) && isDigits fr
            | _ => false)
       | _ => false)
    | _ => false
  if okFormat then .ok s
  else .error ("ValueError: time data does not match format %Y-%m-%d %H:%M:%S.%f: " ++ s)

/-- `DataClient.__fix_current_and_time_data_types` (`client.py` 258-267):
`current_list = [float(x) for x in current_list if x != '']` — empty tokens are
filtered out of the *current* list only — then
`time_list = [strptime(x, ...) for x in time_list]` with no filtering, so an
empty (or malformed) time token raises `ValueError`. The current line runs
first, so a current conversion error raises before the time line is reached. -/
def fix_current_and_time_data_types (current_list time_list : List String) :
    Except String (List ℚ × List String) :=
  match mapExcept pyFloat (current_list.filter (fun x => x != "")) with
  | .error e => .error e
  | .ok currents =>
    match mapExcept strptime_datetime time_list with
    | .error e => .error e
    | .ok times => .ok (currents, times)

/-- One poll tick of `DataClient.start_client` (`client.py` 300-319): read both
wire strings, split on `','`, and convert. There is no length comparison between
the two decoded lists anywhere in the tick; an error here propagates out of
`start_client` (only `WindowsError` is caught, `client.py` 323). -/
def client_poll_tick (current_measurements time_measurements : String) :
    Except String (List ℚ × List String) :=
  fix_current_and_time_data_types (pySplit ',' current_measurements)
    (pySplit ',' time_measurements)

/-! ### The SLP diagnostics engine (`CalculationsSLP`, `calculations.py`)

`CalculationsSLP` stores the derived quantities together with the copied
measurement lists; `calculate_all` runs the individual calculations in a fixed
order. Quantities are reals; a quantity whose Python value would be non-finite
(`nan`/`inf`) is `none`. The numpy empty-array error of `np.max` and the Python
`IndexError` of out-of-range indexing do not arise on the inputs the theorems
below quantify over (at least three samples, currents no longer than the ramp);
on other inputs the total functions below return junk (`0`) where numpy raises. -/

noncomputable section

/-- Value of `np.log x` as published by numpy scalars: a finite real for
`x > 0`, non-finite (`-inf` at `0`, `nan` below) otherwise. -/
def npLog (x : ℝ) : Option ℝ :=
  if 0 < x then some (Real.log x) else none

/-- Subtraction with propagation of non-finite operands. -/
def optSub : Option ℝ → Option ℝ → Option ℝ
  | some a, some b => some (a - b)
  | _, _ => none

/-- Numpy scalar division: non-finite if either operand is, or if the
denominator is zero (numpy yields `±inf`/`nan` there, not an exception). -/
def npDiv : Option ℝ → Option ℝ → Option ℝ
  | some a, some b => if b = 0 then none else some (a / b)
  | _, _ => none

/-- `np.diff l`: consecutive differences. -/
def npDiff (l : List ℝ) : List ℝ :=
  List.zipWith (fun a b => b - a) l l.tail

/-- `np.max l` (`np.max` raises on an empty array; this total model returns `0`
there and is only applied to nonempty lists by the theorems below). -/
def npMax : List ℝ → ℝ
  | [] => 0
  | x :: xs => xs.foldl max x

/-- Index of the first occurrence of `m`, as computed by
`np.argwhere(l == m).astype(int)[0][0]`. -/
def firstIdxEq (m : ℝ) : List ℝ → ℕ
  | [] => 0
  | x :: xs => if x = m then 0 else firstIdxEq m xs + 1

/-- Index of the last strictly negative entry,
`np.argwhere(current < 0)[-1].astype(int)[0]` (`none` when there is none). -/
def lastNegIdx : List ℝ → Option ℕ
  | [] => none
  | x :: xs =>
    match lastNegIdx xs with
    | some j => some (j + 1)
    | none => if x < 0 then some 0 else none

/-- `scipy.constants.electron_mass`. -/
def electron_mass : ℝ := 9.1093837015e-31

/-- `scipy.constants.epsilon_0` (vacuum permittivity). -/
def epsilon_0 : ℝ := 8.8541878128e-12

/-- Probe area constant of `__calculate_density` (`calculations.py` 365). -/
def probe_area : ℝ := 30.3858e-6

/-- Euler's number, Python `math.e` (the model uses the exact real). -/
def math_e : ℝ := Real.exp 1

/-- Measurement data held by a linked `DataClient`. -/
structure ClientData where
  voltage : List ℝ
  current : List ℝ
  time : List String
  gas : String
  magnetic_field : String
  sensor_used : String

/-- The state of a `CalculationsSLP` object: the eight derived quantities
(each starting at the `0.0` sentinel), the optional client link, and the copied
measurement data (`calculations.py` 195-224). `temperature` and `debye_length`
are `Option ℝ` because `np.log` of a non-positive current makes them
non-finite; the other quantities stay finite on every path modelled here. -/
structure SLPState where
  density : ℝ
  temperature : Option ℝ
  temperature_ev : ℝ
  mean_free_path : ℝ
  debye_length : Option ℝ
  larmor_radius : ℝ
  plasma_potential : ℝ
  floating_potential : ℝ
  client : Option ClientData
  voltage : List ℝ
  current : List ℝ
  time : List String
  gas : String
  magnetic_field : String
  sensor_used : String

/-- The derivative `np.diff(current) / np.diff(voltage[0:len(current)])` of
`__get_current_voltage_derivative` (`calculations.py` 237-246), then normalized
by its maximum (`__get_normalized_list`), then
`np.argwhere(normalized == np.max(normalized)).astype(int)[0][0]`. This index
computation is written out twice in the source, in
`__calculate_plasma_potential` (line 303) and `__calculate_density` (line 372). -/
def max_derivative_index (voltage current : List ℝ) : ℕ :=
  let derivative := List.zipWith (· / ·) (npDiff current) (npDiff (voltage.take current.length))
  let derivative_normalized := derivative.map (· / npMax derivative)
  firstIdxEq (npMax derivative_normalized) derivative_normalized

/-- `__calculate_floating_potential` (`calculations.py` 260-282): the voltage at
the last index with negative current; the stored value is kept when no current
is negative (both `pass` branches), and the source's (always-true) range guard
`floating_potential_index < len(current)` is kept as written. -/
def floating_potential_of (voltage current : List ℝ) (old : ℝ) : ℝ :=
  match lastNegIdx current with
  | some i => if i < current.length then voltage.getD i 0 else old
  | none => old

/-- `__calculate_plasma_potential` (`calculations.py` 284-305): the voltage at
the index of the maximum of the normalized current/voltage derivative. -/
def plasma_potential_of (voltage current : List ℝ) : ℝ :=
  voltage.getD (max_derivative_index voltage current) 0

/-- The temperature formula of `__calculate_temperatures` (`calculations.py`
330-345): middle indices are taken separately over the voltage list and the
current list; `np.log` is applied to the *raw* middle current (line 337) and to
the absolute value of the last current (line 340); `current[-1]` is modelled by
`getLast?.getD 0` (Python raises on an empty list; theorems keep ≥ 3 samples). -/
def temperature_formula (voltage current : List ℝ) (pp : ℝ) : Option ℝ :=
  let middle_index_voltage := (voltage.length - 1) / 2
  let middle_index_current := (current.length - 1) / 2
  let middle_voltage := voltage.getD middle_index_voltage 0
  let middle_current_natural_log := npLog (current.getD middle_index_current 0)
  let max_current_natural_log := npLog |current.getLast?.getD 0|
  let slope := npDiv (optSub max_current_natural_log middle_current_natural_log)
    (some (pp - middle_voltage))
  npDiv (some (-1 * math_e)) slope

/-- The density formula of `__calculate_density` (`calculations.py` 348-377). -/
def density_formula (voltage current : List ℝ) (tev : ℝ) : ℝ :=
  -1 * current.getD (max_derivative_index voltage current) 0 /
    (math_e * probe_area * Real.sqrt (tev * |math_e| / (2 * Real.pi * electron_mass)))

/-- The mean-free-path formula of `__calculate_mean_free_path`
(`calculations.py` 397-411): the impedance constant is `18` for gas `'air'`
(exact string comparison) and `180` otherwise. -/
def mean_free_path_formula (tev : ℝ) (gas : String) (density : ℝ) : ℝ :=
  let electrical_impedance : ℝ := if gas = "air" then 18 else 180
  3.4e18 * (tev ^ 2 / (electrical_impedance * density))

/-- The Debye-length formula of `__calculate_debye_length`
(`calculations.py` 427-428); non-finite when the temperature is. -/
def debye_length_formula (temperature : Option ℝ) (density : ℝ) : Option ℝ :=
  temperature.map fun t => Real.sqrt |epsilon_0 * t / (density * math_e ^ 2)|

/-- `__calculate_floating_potential` as a state update. -/
def calculate_floating_potential (s : SLPState) : SLPState :=
  { s with floating_potential := floating_potential_of s.voltage s.current s.floating_potential }

/-- `__calculate_plasma_potential` as a state update. -/
def calculate_plasma_potential (s : SLPState) : SLPState :=
  { s with plasma_potential := plasma_potential_of s.voltage s.current }

/-- `__calculate_temperatures` (`calculations.py` 307-346): recompute floating
and plasma potential when their stored value is still the `0.0` sentinel, then
set the temperature by the slope formula and set `temperature_ev = 1`. -/
def calculate_temperatures (s : SLPState) : SLPState :=
  let s1 := if s.floating_potential = 0 then calculate_floating_potential s else s
  let s2 := if s1.plasma_potential = 0 then calculate_plasma_potential s1 else s1
  { s2 with
    temperature := temperature_formula s2.voltage s2.current s2.plasma_potential
    temperature_ev := 1 }

/-- `__calculate_density` as a state update. -/
def calculate_density (s : SLPState) : SLPState :=
  { s with density := density_formula s.voltage s.current s.temperature_ev }

/-- `__calculate_mean_free_path` (`calculations.py` 379-411): recompute
temperature (hence `temperature_ev`) and density when still at the sentinel,
then apply the formula. -/
def calculate_mean_free_path (s : SLPState) : SLPState :=
  let s1 := if s.temperature_ev = 0 then calculate_temperatures s else s
  let s2 := if s1.density = 0 then calculate_density s1 else s1
  { s2 with mean_free_path := mean_free_path_formula s2.temperature_ev s2.gas s2.density }

/-- `__calculate_debye_length` (`calculations.py` 413-428). -/
def calculate_debye_length (s : SLPState) : SLPState :=
  let s1 := if s.density = 0 then calculate_density s else s
  { s1 with debye_length := debye_length_formula s1.temperature s1.density }

/-- `__calculate_larmor_radius` (`calculations.py` 430-448): the `if True`
branch always stores the sentinel `-1`. -/
def calculate_larmor_radius (s : SLPState) : SLPState :=
  { s with larmor_radius := -1 }

/-- `__recopy_client_data` (`calculations.py` 248-258). -/
def recopy_client_data (s : SLPState) (c : ClientData) : SLPState :=
  { s with voltage := c.voltage, current := c.current, time := c.time,
           gas := c.gas, magnetic_field := c.magnetic_field, sensor_used := c.sensor_used }

/-- `is_linked_to_client` (`calculations.py` 481-491). -/
def is_linked_to_client (s : SLPState) : Bool :=
  s.client.isSome

/-- `has_voltage_and_current_lists` (`calculations.py` 493-502): both lists
hold at least 3 elements. -/
def has_voltage_and_current_lists (s : SLPState) : Bool :=
  decide (2 < s.voltage.length) && decide (2 < s.current.length)

/-- The fixed calculation sequence of `calculate_all` (`calculations.py`
462-468): floating potential, plasma potential, temperatures, density, mean
free path, Debye length, Larmor radius — each invoked unconditionally. -/
def slpPipeline (s : SLPState) : SLPState :=
  calculate_larmor_radius (calculate_debye_length (calculate_mean_free_path
    (calculate_density (calculate_temperatures (calculate_plasma_potential
      (calculate_floating_potential s))))))

/-- `calculate_all` (`calculations.py` 450-471): requires a client link or
≥ 3-element lists, recopies client data when linked, then runs the pipeline;
otherwise raises `ValueError`. -/
def calculate_all (s : SLPState) : Except String SLPState :=
  if is_linked_to_client s || has_voltage_and_current_lists s then
    let s0 := match s.client with
      | some c => recopy_client_data s c
      | none => s
    .ok (slpPipeline s0)
  else
    .error "Calculations object not linked to a client"

end

/-! ### Concrete states and spec-side definitions used by the claim theorems -/

noncomputable section

/-- Temperature formula as the spec words it: a single middle index of the
sample list and **both** logarithms taken of absolute values. Stated only to be
compared against `temperature_formula`, which embeds the source. -/
def temperature_spec (voltage current : List ℝ) (pp : ℝ) : Option ℝ :=
  let mid := (current.length - 1) / 2
  let slope := npDiv (optSub (npLog |current.getLast?.getD 0|) (npLog |current.getD mid 0|))
    (some (pp - voltage.getD mid 0))
  npDiv (some (-1 * math_e)) slope

/-- A five-sample stream whose stored plasma potential already holds the
non-zero value `42`; the freshly computed plasma potential of its lists is `3`. -/
def c1State : SLPState where
  density := 0
  temperature := some 0
  temperature_ev := 0
  mean_free_path := 0
  debye_length := some 0
  larmor_radius := 0
  plasma_potential := 42
  floating_potential := 0
  client := none
  voltage := [0, 1, 2, 3, 4]
  current := [-2, -1, 1/2, 1, 3]
  time := []
  gas := "air"
  magnetic_field := ""
  sensor_used := "SLP"

/-- An unlinked state with only two samples. -/
def c3State : SLPState where
  density := 0
  temperature := some 0
  temperature_ev := 0
  mean_free_path := 0
  debye_length := some 0
  larmor_radius := 0
  plasma_potential := 0
  floating_potential := 0
  client := none
  voltage := [1, 2]
  current := [-1, 1]
  time := []
  gas := "air"
  magnetic_field := ""
  sensor_used := "SLP"

/-- An unlinked state with a three-entry ramp but a single current sample. -/
def c3bState : SLPState where
  density := 0
  temperature := some 0
  temperature_ev := 0
  mean_free_path := 0
  debye_length := some 0
  larmor_radius := 0
  plasma_potential := 0
  floating_potential := 0
  client := none
  voltage := [0, 1, 2]
  current := [5]
  time := []
  gas := "air"
  magnetic_field := ""
  sensor_used := "SLP"

/-- The spec example stream: currents `[-2, -1, 0.5, 1, 3]` at voltages
`[0, 1, 2, 3, 4]`. -/
def c5State : SLPState where
  density := 0
  temperature := some 0
  temperature_ev := 0
  mean_free_path := 0
  debye_length := some 0
  larmor_radius := 0
  plasma_potential := 0
  floating_potential := 0
  client := none
  voltage := [0, 1, 2, 3, 4]
  current := [-2, -1, 1/2, 1, 3]
  time := []
  gas := "air"
  magnetic_field := ""
  sensor_used := "SLP"

/-- A stream whose middle current sample is negative (`-2`), with floating and
plasma potential already non-zero so the temperature guards do not fire. -/
def c6State : SLPState where
  density := 0
  temperature := some 0
  temperature_ev := 0
  mean_free_path := 0
  debye_length := some 0
  larmor_radius := 0
  plasma_potential := 5
  floating_potential := 1
  client := none
  voltage := [0, 1, 2]
  current := [-4, -2, -1]
  time := []
  gas := "air"
  magnetic_field := ""
  sensor_used := "SLP"

/-- A stream with positive currents, non-zero floating and plasma potentials. -/
def c6wState : SLPState where
  density := 0
  temperature := some 0
  temperature_ev := 0
  mean_free_path := 0
  debye_length := some 0
  larmor_radius := 0
  plasma_potential := 3
  floating_potential := 7
  client := none
  voltage := [0, 1, 2]
  current := [1, 2, 4]
  time := []
  gas := "air"
  magnetic_field := ""
  sensor_used := "SLP"

/-- A state with gas label `"Air"` (not the exact lowercase `"air"`),
`temperature_ev = 1` and `density = 2`. -/
def c7State : SLPState where
  density := 2
  temperature := some 0
  temperature_ev := 1
  mean_free_path := 0
  debye_length := some 0
  larmor_radius := 0
  plasma_potential := 0
  floating_potential := 0
  client := none
  voltage := []
  current := []
  time := []
  gas := "Air"
  magnetic_field := ""
  sensor_used := "SLP"

/-- A three-sample unlinked stream for the idempotence witness. -/
def c9State : SLPState where
  density := 0
  temperature := some 0
  temperature_ev := 0
  mean_free_path := 0
  debye_length := some 0
  larmor_radius := 0
  plasma_potential := 0
  floating_potential := 0
  client := none
  voltage := [0, 1, 2]
  current := [-2, -1, 3]
  time := []
  gas := "air"
  magnetic_field := ""
  sensor_used := "SLP"

/-- The outcome of the sweep `run_SLP_measurements 6 "1,2,3" "None"` with no
abort: currents `-v/100` for each ramp voltage. -/
def c10Run : SLPRun where
  currents := [-(1/100), -(1/50), -(3/100)]
  times := ["t", "t", "t"]
  finished := true

end

/-! ### Helper lemmas -/

theorem floating_potential_of_idem (v c : List ℝ) (x : ℝ) :
    floating_potential_of v c (floating_potential_of v c x) = floating_potential_of v c x := by
  unfold floating_potential_of
  cases h : lastNegIdx c with
  | none => rfl
  | some i => by_cases hi : i < c.length <;> simp [hi]

/-- Normal form of the `calculate_all` pipeline: every quantity is overwritten
with the value freshly computed from the lists; only the floating potential
keeps its old value (and only when no current is negative). -/
theorem slpPipeline_eq (s : SLPState) :
    slpPipeline s =
      { s with
        floating_potential := floating_potential_of s.voltage s.current s.floating_potential,
        plasma_potential := plasma_potential_of s.voltage s.current,
        temperature := temperature_formula s.voltage s.current
          (plasma_potential_of s.voltage s.current),
        temperature_ev := 1,
        density := density_formula s.voltage s.current 1,
        mean_free_path := mean_free_path_formula 1 s.gas (density_formula s.voltage s.current 1),
        debye_length := debye_length_formula
          (temperature_formula s.voltage s.current (plasma_potential_of s.voltage s.current))
          (density_formula s.voltage s.current 1),
        larmor_radius := -1 } := by
  have htemps : calculate_temperatures (calculate_plasma_potential
      (calculate_floating_potential s)) =
      { s with
        floating_potential := floating_potential_of s.voltage s.current s.floating_potential,
        plasma_potential := plasma_potential_of s.voltage s.current,
        temperature := temperature_formula s.voltage s.current
          (plasma_potential_of s.voltage s.current),
        temperature_ev := 1 } := by
    unfold calculate_temperatures calculate_plasma_potential calculate_floating_potential
    by_cases hf : floating_potential_of s.voltage s.current s.floating_potential = 0 <;>
      by_cases hp : plasma_potential_of s.voltage s.current = 0
    all_goals
      first
      | (have hf0 : floating_potential_of s.voltage s.current 0 = 0 := by
           rw [← hf]; exact floating_potential_of_idem s.voltage s.current s.floating_potential
         simp [hf, hp, hf0])
      | simp [hf, hp]
  unfold slpPipeline
  rw [htemps]
  unfold calculate_density calculate_mean_free_path calculate_debye_length calculate_larmor_radius
  by_cases hd : density_formula s.voltage s.current 1 = 0 <;>
    simp [hd, calculate_density, calculate_temperatures]

theorem slpPipeline_idem (s : SLPState) : slpPipeline (slpPipeline s) = slpPipeline s := by
  rw [slpPipeline_eq s, slpPipeline_eq]
  simp [floating_potential_of_idem]

theorem slpPipeline_client (s : SLPState) : (slpPipeline s).client = s.client := by
  rw [slpPipeline_eq]

theorem slpPipeline_voltage (s : SLPState) : (slpPipeline s).voltage = s.voltage := by
  rw [slpPipeline_eq]

theorem slpPipeline_current (s : SLPState) : (slpPipeline s).current = s.current := by
  rw [slpPipeline_eq]

theorem recopy_slpPipeline_recopy (s : SLPState) (c : ClientData) :
    recopy_client_data (slpPipeline (recopy_client_data s c)) c =
      slpPipeline (recopy_client_data s c) := by
  rw [slpPipeline_eq]
  simp [recopy_client_data]

theorem calculate_all_ok_shape (s : SLPState)
    (hg : is_linked_to_client s || has_voltage_and_current_lists s) :
    calculate_all s = .ok (slpPipeline (match s.client with
      | some c => recopy_client_data s c
      | none => s)) := by
  unfold calculate_all
  rw [if_pos hg]

theorem lastNegIdx_lt (c : List ℝ) (i : ℕ) (h : lastNegIdx c = some i) : i < c.length := by
  induction c generalizing i with
  | nil => simp [lastNegIdx] at h
  | cons x xs ih =>
    rw [lastNegIdx] at h
    cases hx : lastNegIdx xs with
    | some j =>
      rw [hx] at h
      simp only [Option.some.injEq] at h
      have := ih j hx
      simp only [List.length_cons]
      omega
    | none =>
      rw [hx] at h
      by_cases hneg : x < 0 <;> simp [hneg] at h
      simp only [List.length_cons]
      omega

theorem lastNegIdx_none (c : List ℝ) (h : ∀ j, j < c.length → 0 ≤ c.getD j 0) :
    lastNegIdx c = none := by
  induction c with
  | nil => rfl
  | cons x xs ih =>
    have hxs : lastNegIdx xs = none :=
      ih (fun j hj => by simpa using h (j + 1) (by simpa using hj))
    have hx : ¬ x < 0 := not_lt.mpr (by simpa using h 0 (by simp))
    rw [lastNegIdx, hxs]
    simp [hx]

theorem lastNegIdx_some (c : List ℝ) (i : ℕ) (hi : i < c.length) (hneg : c.getD i 0 < 0)
    (hafter : ∀ j, i < j → j < c.length → 0 ≤ c.getD j 0) : lastNegIdx c = some i := by
  induction c generalizing i with
  | nil => simp at hi
  | cons x xs ih =>
    cases i with
    | zero =>
      have hxs : lastNegIdx xs = none := lastNegIdx_none xs (fun j hj => by
        simpa using hafter (j + 1) (Nat.succ_pos j) (by simpa using hj))
      rw [lastNegIdx, hxs]
      simp only [List.getD_cons_zero] at hneg
      simp [hneg]
    | succ n =>
      have hxs : lastNegIdx xs = some n := ih n (by simpa using hi) (by simpa using hneg)
        (fun j hj hjl => by simpa using hafter (j + 1) (by omega) (by simpa using hjl))
      rw [lastNegIdx, hxs]

theorem optSub_right_none (x : Option ℝ) : optSub x none = none := by
  cases x <;> rfl

theorem npDiv_left_none (y : Option ℝ) : npDiv none y = none := by
  cases y <;> rfl

theorem npDiv_right_none (x : Option ℝ) : npDiv x none = none := by
  cases x <;> rfl

/-- When floating and plasma potential are already non-zero, the temperature
guards do not fire and `__calculate_temperatures` applies the formula to the
stored plasma potential. -/
theorem calculate_temperatures_unfold (s : SLPState) (hf : s.floating_potential ≠ 0)
    (hp : s.plasma_potential ≠ 0) :
    (calculate_temperatures s).temperature =
      temperature_formula s.voltage s.current s.plasma_potential ∧
    (calculate_temperatures s).temperature_ev = 1 := by
  unfold calculate_temperatures
  simp [hf, hp]

theorem slpLoopNone_times_length (clock : ℕ → String) (ab : ℕ → Bool) (vs : List ℚ) (k : ℕ) :
    (slpLoopNone clock ab vs k).2.length = (slpLoopNone clock ab vs k).1.length := by
  induction vs generalizing k with
  | nil => rfl
  | cons v vs ih =>
    rw [slpLoopNone]
    by_cases hab : ab k <;> simp [hab, ih]

theorem slpLoopNone_length_le (clock : ℕ → String) (ab : ℕ → Bool) (vs : List ℚ) (base m : ℕ)
    (h : ∀ i, base + m ≤ i → ab i = true) :
    (slpLoopNone clock ab vs base).1.length ≤ m := by
  induction vs generalizing base m with
  | nil => simp [slpLoopNone]
  | cons v vs ih =>
    rw [slpLoopNone]
    by_cases hab : ab base
    · simp [hab]
    · cases m with
      | zero => exact absurd (h base (by omega)) (by simp [hab])
      | succ m =>
        simp only [hab, if_false, Bool.false_eq_true]
        have := ih (base + 1) m (fun i hi => h i (by omega))
        simp only [List.length_cons]
        omega

theorem slpLoopNone_currents_take (clock : ℕ → String) (ab : ℕ → Bool) (vs : List ℚ)
    (base : ℕ) :
    ∃ n, (slpLoopNone clock ab vs base).1 =
      (vs.take n).map (fun v => v * -2 / shunt_resistor) := by
  induction vs generalizing base with
  | nil => exact ⟨0, by simp [slpLoopNone]⟩
  | cons v vs ih =>
    rw [slpLoopNone]
    by_cases hab : ab base
    · exact ⟨0, by simp [hab]⟩
    · obtain ⟨n, hn⟩ := ih (base + 1)
      exact ⟨n + 1, by simp [hab, hn]⟩

/-- A sweep with filter `'None'`, a nonempty ramp string and a well-formed ramp
terminates normally, publishing the loop output and `finished = true`. -/
theorem run_SLP_none_ok (voltage_sweep_time : ℚ) (voltage_ramp : String)
    (abort_measurements : ℕ → Bool) (clock : ℕ → String) (voltages : List ℚ)
    (hlen : voltage_ramp.length ≠ 0)
    (hparse : parse_float_list (pySplit ',' voltage_ramp) = .ok voltages) :
    run_SLP_measurements voltage_sweep_time voltage_ramp "None" abort_measurements clock =
      .ok ⟨(slpLoopNone clock abort_measurements voltages 0).1,
        (slpLoopNone clock abort_measurements voltages 0).2, true⟩ := by
  simp only [run_SLP_measurements, hparse]
  rw [if_neg (by simpa using hlen)]
  rfl

theorem mapExcept_ok_length (f : α → Except String β) (l : List α) (r : List β)
    (h : mapExcept f l = .ok r) : r.length = l.length := by
  induction l generalizing r with
  | nil =>
    simp only [mapExcept, Except.ok.injEq] at h
    subst h
    rfl
  | cons a as ih =>
    rw [mapExcept] at h
    cases hf : f a with
    | error e => rw [hf] at h; simp at h
    | ok b =>
      rw [hf] at h
      cases hm : mapExcept f as with
      | error e => rw [hm] at h; simp at h
      | ok bs =>
        rw [hm] at h
        simp only [Except.ok.injEq] at h
        rw [← h]
        simp [ih bs hm]

/-! ### Claim C1 -/

/-- C1, counterexample: on a stream whose stored plasma potential is the
non-zero value `42`, the recompute does not leave it unchanged — `calculate_all`
overwrites it with the freshly computed value `3`. -/
theorem C1_counterexample :
    c1State.plasma_potential = 42 ∧
    Except.map SLPState.plasma_potential (calculate_all c1State) = .ok 3 ∧ (42 : ℝ) ≠ 3 := by
  refine ⟨rfl, ?_, by norm_num⟩
  have hok : calculate_all c1State = .ok (slpPipeline c1State) := rfl
  rw [hok]
  show Except.ok (slpPipeline c1State).plasma_potential = Except.ok 3
  rw [slpPipeline_eq]
  show Except.ok (plasma_potential_of c1State.voltage c1State.current) = Except.ok 3
  have h3 : plasma_potential_of c1State.voltage c1State.current = 3 := by
    simp [c1State, plasma_potential_of, max_derivative_index, npDiff, npMax, firstIdxEq]
    norm_num [max_def]
  rw [h3]

/-- C1 (amended): `calculate_all` invokes every calculation unconditionally, so
each quantity is overwritten with the value recomputed from the current lists
regardless of its stored value — the plasma potential, `temperature_ev`, the
density and the Larmor radius of the result do not depend on the stored
quantities at all. The zero-sentinel guards exist only as dependency pre-checks
inside the temperature, mean-free-path and Debye-length calculations. -/
theorem C1_calculate_all_recomputes_unconditionally (s t : SLPState) (hc : s.client = none)
    (h : calculate_all s = .ok t) :
    t.plasma_potential = plasma_potential_of s.voltage s.current ∧
    t.temperature_ev = 1 ∧
    t.density = density_formula s.voltage s.current 1 ∧
    t.larmor_radius = -1 := by
  by_cases hg : (is_linked_to_client s || has_voltage_and_current_lists s) = true
  · rw [calculate_all_ok_shape s hg, hc] at h
    simp only [Except.ok.injEq] at h
    rw [← h, slpPipeline_eq]
    exact ⟨rfl, rfl, rfl, rfl⟩
  · unfold calculate_all at h
    rw [if_neg hg] at h
    exact absurd h (by simp)

/-- C1, witness: the amended theorem applied to the concrete stream. -/
theorem C1_witness :
    (slpPipeline c1State).temperature_ev = 1 ∧ (slpPipeline c1State).larmor_radius = -1 := by
  have h := C1_calculate_all_recomputes_unconditionally c1State (slpPipeline c1State) rfl rfl
  exact ⟨h.2.1, h.2.2.2⟩

/-! ### Claim C2 -/

/-- C2, counterexample: a zero-length ramp does not terminate the sweep
normally with `finished = true` and empty lists — the per-step delay
computation divides by zero and the driver raises. -/
theorem C2_counterexample :
    run_SLP_measurements 5 "" "None" (fun _ => false) (fun _ => "") =
      .error "ZeroDivisionError: float division by zero" := rfl

/-- C2 (amended): there is no explicit guard against a zero-length ramp: for
every sweep time, filter selection, abort schedule and clock, a request whose
ramp has zero length makes `step_time = voltage_sweep_time /
number_of_measurements` raise `ZeroDivisionError`; `finished` is never set and
no samples are published. -/
theorem C2_zero_length_ramp_divides_by_zero (voltage_sweep_time : ℚ)
    (current_filter : String) (abort_measurements : ℕ → Bool) (clock : ℕ → String) :
    run_SLP_measurements voltage_sweep_time "" current_filter abort_measurements clock =
      .error "ZeroDivisionError: float division by zero" := rfl

/-! ### Claim C3 -/

/-- C3, counterexample: invoked on an unlinked stream with two samples,
`calculate_all` is not a no-op — it raises `ValueError`. -/
theorem C3_counterexample :
    c3State.current.length < 3 ∧
    calculate_all c3State = .error "Calculations object not linked to a client" :=
  ⟨by norm_num [c3State], rfl⟩

/-- C3 (amended): when the object is not linked to a client and either list has
fewer than 3 elements, `calculate_all` raises `ValueError` instead of being a
silent no-op; the under-3-samples condition is surfaced as an exception. -/
theorem C3_too_few_samples_raises (s : SLPState) (hc : s.client = none)
    (h : s.voltage.length ≤ 2 ∨ s.current.length ≤ 2) :
    calculate_all s = .error "Calculations object not linked to a client" := by
  have hg : (is_linked_to_client s || has_voltage_and_current_lists s) = false := by
    simp only [is_linked_to_client, hc, Option.isSome_none, has_voltage_and_current_lists,
      Bool.false_or, Bool.and_eq_false_iff, decide_eq_false_iff_not, not_lt]
    omega
  unfold calculate_all
  rw [hg]
  rfl

/-- C3, witness: the amended theorem applied to a one-sample stream. -/
theorem C3_witness :
    calculate_all c3bState = .error "Calculations object not linked to a client" :=
  C3_too_few_samples_raises c3bState rfl (Or.inr (by norm_num [c3bState]))

/-! ### Claim C4 -/

/-- C4, counterexample: the decode does not drop empty tokens from the time
list — a tick whose time wire is empty raises `ValueError` instead of being
retried — and a tick whose decoded current and time lists have different
lengths (2 versus 1) is accepted, not discarded. -/
theorem C4_counterexample :
    client_poll_tick "" "" =
      .error "ValueError: time data does not match format %Y-%m-%d %H:%M:%S.%f: " ∧
    client_poll_tick "1.0,2.0" "2024-01-01 12:00:00.000001" =
      .ok ([1, 2], ["2024-01-01 12:00:00.000001"]) ∧ (2 : ℕ) ≠ 1 := by
  refine ⟨rfl, ?_, by norm_num⟩
  simp [client_poll_tick, fix_current_and_time_data_types, pySplit, splitOnChar, mapExcept,
    pyFloat, pyFloatBody, isDigits, digitsToNat, strptime_datetime]

/-- C4 (amended): the decode drops empty tokens only from the current list
before parsing to float; every time token is parsed unconditionally, one output
per input token, and no length comparison is made between the two decoded
lists: a successful decode returns the filtered-current length and the full
time length independently. -/
theorem C4_decode_drops_empties_only_for_currents (current_list time_list : List String)
    (cs : List ℚ) (ts : List String)
    (h : fix_current_and_time_data_types current_list time_list = .ok (cs, ts)) :
    cs.length = (current_list.filter (fun x => x != "")).length ∧
    ts.length = time_list.length := by
  unfold fix_current_and_time_data_types at h
  cases hc : mapExcept pyFloat (current_list.filter (fun x => x != "")) with
  | error e => rw [hc] at h; simp at h
  | ok currents =>
    rw [hc] at h
    cases htm : mapExcept strptime_datetime time_list with
    | error e => rw [htm] at h; simp at h
    | ok times =>
      rw [htm] at h
      simp only [Except.ok.injEq, Prod.mk.injEq] at h
      obtain ⟨h1, h2⟩ := h
      rw [← h1, ← h2]
      exact ⟨mapExcept_ok_length _ _ _ hc, mapExcept_ok_length _ _ _ htm⟩

/-- C4, witness: a decode of three current tokens (one empty) and one time
token succeeds with mismatched lengths 2 and 1. -/
theorem C4_witness :
    ([(1 : ℚ), 5/2].length = (["1.0", "", "2.5"].filter (fun x => x != "")).length) ∧
    ((["2024-01-01 12:00:00.000001"] : List String).length =
      ([("2024-01-01 12:00:00.000001" : String)]).length) :=
  C4_decode_drops_empties_only_for_currents ["1.0", "", "2.5"]
    ["2024-01-01 12:00:00.000001"] [1, 5/2] ["2024-01-01 12:00:00.000001"]
    (by
      simp [fix_current_and_time_data_types, mapExcept, pyFloat, pyFloatBody, splitOnChar,
        isDigits, digitsToNat, strptime_datetime]
      norm_num)

/-! ### Claim C5 -/

/-- C5 (confirmed): the computed floating potential is the voltage at the last
index whose current sample is negative; when no sample has a negative current
and the stored value is the zero sentinel, it is left at the sentinel. -/
theorem C5_floating_potential_last_negative (s : SLPState) :
    (∀ i, i < s.current.length → s.current.getD i 0 < 0 →
      (∀ j, i < j → j < s.current.length → 0 ≤ s.current.getD j 0) →
      (calculate_floating_potential s).floating_potential = s.voltage.getD i 0) ∧
    ((∀ j, j < s.current.length → 0 ≤ s.current.getD j 0) →
      s.floating_potential = 0 →
      (calculate_floating_potential s).floating_potential = 0) := by
  constructor
  · intro i hi hneg hafter
    unfold calculate_floating_potential floating_potential_of
    rw [lastNegIdx_some s.current i hi hneg hafter]
    simp [hi]
  · intro hall hzero
    unfold calculate_floating_potential floating_potential_of
    rw [lastNegIdx_none s.current hall]
    simpa using hzero

/-- C5, witness: for currents `[-2, -1, 0.5, 1, 3]` at voltages
`[0, 1, 2, 3, 4]`, the last negative current is at index 1 and the floating
potential equals `1`, as in the spec example. -/
theorem C5_witness :
    ((1 : ℕ) < c5State.current.length ∧ c5State.current.getD 1 0 < 0) ∧
    (calculate_floating_potential c5State).floating_potential = 1 := by
  have hneg : c5State.current.getD 1 0 < 0 := by
    rw [show c5State.current.getD 1 0 = (-1 : ℝ) from rfl]; norm_num
  have hafter : ∀ j, 1 < j → j < c5State.current.length → 0 ≤ c5State.current.getD j 0 := by
    intro j h1 h2
    have h5 : j < 5 := by simpa [c5State] using h2
    interval_cases j
    · rw [show c5State.current.getD 2 0 = (1/2 : ℝ) from rfl]; norm_num
    · rw [show c5State.current.getD 3 0 = (1 : ℝ) from rfl]; norm_num
    · rw [show c5State.current.getD 4 0 = (3 : ℝ) from rfl]; norm_num
  have hmain := (C5_floating_potential_last_negative c5State).1 1
    (by norm_num [c5State]) hneg hafter
  refine ⟨⟨by norm_num [c5State], hneg⟩, ?_⟩
  rw [hmain]
  rfl

/-! ### Claim C6 -/

/-- C6, counterexample: on the stream with currents `[-4, -2, -1]` the code
temperature is non-finite (`np.log` of the raw, negative middle current), while
the spec formula — both logarithms of absolute values — yields a finite value. -/
theorem C6_counterexample :
    (calculate_temperatures c6State).temperature = none ∧
    (temperature_spec c6State.voltage c6State.current c6State.plasma_potential).isSome = true := by
  constructor
  · have h := (calculate_temperatures_unfold c6State (by norm_num [c6State])
      (by norm_num [c6State])).1
    rw [h]
    simp only [temperature_formula]
    rw [show c6State.current.getD ((c6State.current.length - 1) / 2) 0 = (-2 : ℝ) from rfl]
    rw [show npLog (-2 : ℝ) = none by rw [npLog, if_neg]; norm_num]
    rw [optSub_right_none, npDiv_left_none, npDiv_right_none]
  · rw [temperature_spec]
    rw [show c6State.current.getD ((c6State.current.length - 1) / 2) 0 = (-2 : ℝ) from rfl]
    rw [show c6State.current.getLast?.getD 0 = (-1 : ℝ) from rfl]
    rw [show c6State.voltage.getD ((c6State.current.length - 1) / 2) 0 = (1 : ℝ) from rfl]
    rw [show |(-1 : ℝ)| = 1 by norm_num, show |(-2 : ℝ)| = 2 by norm_num]
    rw [show npLog (1 : ℝ) = some 0 by rw [npLog, if_pos one_pos, Real.log_one]]
    rw [show npLog (2 : ℝ) = some (Real.log 2) by
      rw [npLog, if_pos (by norm_num : (0 : ℝ) < 2)]]
    rw [show c6State.plasma_potential = (5 : ℝ) from rfl]
    rw [show optSub (some (0 : ℝ)) (some (Real.log 2)) = some (0 - Real.log 2) from rfl]
    have hlog2 : Real.log 2 ≠ 0 := by
      have := Real.log_pos (by norm_num : (1 : ℝ) < 2)
      linarith
    rw [show npDiv (some ((0 : ℝ) - Real.log 2)) (some (5 - 1)) =
        some ((0 - Real.log 2) / (5 - 1)) by rw [npDiv, if_neg]; norm_num]
    rw [show npDiv (some (-1 * math_e)) (some ((0 - Real.log 2) / (5 - 1))) =
        some ((-1 * math_e) / ((0 - Real.log 2) / (5 - 1))) by
      rw [npDiv, if_neg]
      intro hcon
      rw [div_eq_zero_iff] at hcon
      rcases hcon with hcon | hcon
      · rw [zero_sub, neg_eq_zero] at hcon; exact hlog2 hcon
      · norm_num at hcon]
    rfl

/-- C6 (amended): when floating and plasma potential are already non-zero, the
computed temperature is `-e / slope` with
`slope = (ln |current[last]| - ln (current[mid_c])) / (plasma_potential -
voltage[mid_v])`: the last-sample logarithm is of the absolute value but the
middle-sample logarithm is of the **raw** current value, and the middle index
is taken separately over the current list (`mid_c`) and the voltage list
(`mid_v`); `temperature_ev` is set to the fixed value `1`. -/
theorem C6_temperature_slope_raw_middle_log (s : SLPState) (hf : s.floating_potential ≠ 0)
    (hp : s.plasma_potential ≠ 0) :
    (calculate_temperatures s).temperature =
      npDiv (some (-1 * math_e))
        (npDiv (optSub (npLog |s.current.getLast?.getD 0|)
            (npLog (s.current.getD ((s.current.length - 1) / 2) 0)))
          (some (s.plasma_potential - s.voltage.getD ((s.voltage.length - 1) / 2) 0))) ∧
    (calculate_temperatures s).temperature_ev = 1 := by
  have h := calculate_temperatures_unfold s hf hp
  refine ⟨?_, h.2⟩
  rw [h.1]
  simp only [temperature_formula]

/-- C6, witness: the amended theorem applied to a stream with positive
currents and non-zero potentials. -/
theorem C6_witness :
    c6wState.floating_potential ≠ 0 ∧ c6wState.plasma_potential ≠ 0 ∧
    (calculate_temperatures c6wState).temperature_ev = 1 := by
  have hf : c6wState.floating_potential ≠ 0 := by
    rw [show c6wState.floating_potential = (7 : ℝ) from rfl]; norm_num
  have hp : c6wState.plasma_potential ≠ 0 := by
    rw [show c6wState.plasma_potential = (3 : ℝ) from rfl]; norm_num
  exact ⟨hf, hp, (C6_temperature_slope_raw_middle_log c6wState hf hp).2⟩

/-! ### Claim C7 -/

/-- C7 (confirmed): with non-sentinel `temperature_ev` and density, the mean
free path is `3.4e18 * temperature_ev^2 / (impedance * density)` where the
impedance constant is `18` exactly when the gas label equals `"air"`
(case-sensitive exact match) and `180` for any other label. -/
theorem C7_mean_free_path_impedance (s : SLPState) (ht : s.temperature_ev ≠ 0)
    (hd : s.density ≠ 0) :
    (s.gas = "air" → (calculate_mean_free_path s).mean_free_path =
        3.4e18 * s.temperature_ev ^ 2 / (18 * s.density)) ∧
    (s.gas ≠ "air" → (calculate_mean_free_path s).mean_free_path =
        3.4e18 * s.temperature_ev ^ 2 / (180 * s.density)) := by
  have hstep : (calculate_mean_free_path s).mean_free_path =
      mean_free_path_formula s.temperature_ev s.gas s.density := by
    simp only [calculate_mean_free_path]
    rw [if_neg ht, if_neg hd]
  rw [hstep]
  simp only [mean_free_path_formula]
  constructor
  · intro hg
    rw [if_pos hg]
    ring
  · intro hg
    rw [if_neg hg]
    ring

/-- C7, witness: the gas label `"Air"` differs from `"air"` in case only and
selects the impedance constant `180`. -/
theorem C7_witness :
    c7State.gas ≠ "air" ∧
    (calculate_mean_free_path c7State).mean_free_path = 3.4e18 * (1 : ℝ) ^ 2 / (180 * 2) := by
  have hg : c7State.gas ≠ "air" := by
    rw [show c7State.gas = "Air" from rfl]
    decide
  have ht : c7State.temperature_ev ≠ 0 := by
    rw [show c7State.temperature_ev = (1 : ℝ) from rfl]; norm_num
  have hd : c7State.density ≠ 0 := by
    rw [show c7State.density = (2 : ℝ) from rfl]; norm_num
  have h := (C7_mean_free_path_impedance c7State ht hd).2 hg
  refine ⟨hg, ?_⟩
  rw [h, show c7State.temperature_ev = (1 : ℝ) from rfl, show c7State.density = (2 : ℝ) from rfl]

/-! ### Claim C8 -/

/-- C8 (confirmed): the abort node is read once per voltage step (the single
check at the head of each `slpLoopNone` step); when the abort flag is asserted
from check `k + 1` on — an abort requested after sample `k` — the driver stops
appending, terminates normally with `finished = true`, at most `k + 1` current
samples and time samples matching the current samples in length. -/
theorem C8_abort_truncation (voltage_sweep_time : ℚ) (voltage_ramp : String)
    (abort_measurements : ℕ → Bool) (clock : ℕ → String) (voltages : List ℚ) (k : ℕ)
    (hlen : voltage_ramp.length ≠ 0)
    (hparse : parse_float_list (pySplit ',' voltage_ramp) = .ok voltages)
    (habort : ∀ i, k + 1 ≤ i → abort_measurements i = true) :
    ∃ r, run_SLP_measurements voltage_sweep_time voltage_ramp "None" abort_measurements clock =
        .ok r ∧
      r.finished = true ∧ r.currents.length ≤ k + 1 ∧ r.times.length = r.currents.length := by
  refine ⟨⟨(slpLoopNone clock abort_measurements voltages 0).1,
    (slpLoopNone clock abort_measurements voltages 0).2, true⟩, ?_, rfl, ?_, ?_⟩
  · exact run_SLP_none_ok voltage_sweep_time voltage_ramp abort_measurements clock voltages
      hlen hparse
  · exact slpLoopNone_length_le clock abort_measurements voltages 0 (k + 1)
      (fun i hi => habort i (by omega))
  · exact slpLoopNone_times_length clock abort_measurements voltages 0

/-- C8, witness: on the ramp `"1,2,3"` with abort observed from check 2 on,
the sweep finishes with at most two samples. -/
theorem C8_witness :
    ∃ r, run_SLP_measurements 6 "1,2,3" "None" (fun i => decide (2 ≤ i)) (fun _ => "t") =
        .ok r ∧
      r.finished = true ∧ r.currents.length ≤ 2 ∧ r.times.length = r.currents.length := by
  have hparse : parse_float_list (pySplit ',' "1,2,3") = .ok [1, 2, 3] := by
    simp [parse_float_list, pySplit, splitOnChar, mapExcept, pyFloat, pyFloatBody,
      isDigits, digitsToNat]
  exact C8_abort_truncation 6 "1,2,3" (fun i => decide (2 ≤ i)) (fun _ => "t") [1, 2, 3] 1
    (by decide) hparse (fun i hi => decide_eq_true hi)

/-! ### Claim C9 -/

/-- C9 (confirmed): recomputing the diagnostics twice on an unchanged stream
yields the identical result: if `calculate_all` on `s` succeeds with result
`t`, then `calculate_all` on `t` (which carries the same sample stream and the
same client link) returns `t` itself, changing no derived quantity. -/
theorem C9_calculate_all_idempotent (s t : SLPState) (h : calculate_all s = .ok t) :
    calculate_all t = .ok t := by
  by_cases hg : (is_linked_to_client s || has_voltage_and_current_lists s) = true
  · rw [calculate_all_ok_shape s hg] at h
    cases hc : s.client with
    | none =>
      rw [hc] at h
      simp only [Except.ok.injEq] at h
      have htc : t.client = none := by rw [← h, slpPipeline_client, hc]
      have hls : has_voltage_and_current_lists s = true := by
        cases hb : has_voltage_and_current_lists s
        · rw [is_linked_to_client, hc] at hg; simp [hb] at hg
        · rfl
      have hg2 : (is_linked_to_client t || has_voltage_and_current_lists t) = true := by
        have hlt : has_voltage_and_current_lists t = true := by
          rw [has_voltage_and_current_lists] at hls ⊢
          rw [← h, slpPipeline_voltage, slpPipeline_current]
          exact hls
        simp [hlt]
      rw [calculate_all_ok_shape t hg2, htc]
      show Except.ok (slpPipeline t) = Except.ok t
      rw [← h, slpPipeline_idem]
    | some c =>
      rw [hc] at h
      simp only [Except.ok.injEq] at h
      have htc : t.client = some c := by
        rw [← h, slpPipeline_client]
        simp [recopy_client_data, hc]
      have hg2 : (is_linked_to_client t || has_voltage_and_current_lists t) = true := by
        simp [is_linked_to_client, htc]
      rw [calculate_all_ok_shape t hg2, htc]
      show Except.ok (slpPipeline (recopy_client_data t c)) = Except.ok t
      rw [← h, recopy_slpPipeline_recopy, slpPipeline_idem]
  · unfold calculate_all at h
    rw [if_neg hg] at h
    exact absurd h (by simp)

/-- C9, witness: the idempotence theorem applied to a concrete three-sample
stream; the second recompute returns the first result unchanged. -/
theorem C9_witness :
    calculate_all (slpPipeline c9State) = .ok (slpPipeline c9State) :=
  C9_calculate_all_idempotent c9State (slpPipeline c9State) rfl

/-! ### Claim C10 -/

/-- C10 (confirmed): in a sweep with current filter `'None'`, the `k`-th
published current sample is the pure function `-voltage_k / 100` of the `k`-th
ramp voltage (that is, `(voltage * -2) / 200` with the 200-ohm shunt resistor),
and if every ramp voltage is strictly positive then every published current is
strictly negative. -/
theorem C10_current_formula (voltage_sweep_time : ℚ) (voltage_ramp : String)
    (abort_measurements : ℕ → Bool) (clock : ℕ → String) (voltages : List ℚ) (r : SLPRun)
    (hparse : parse_float_list (pySplit ',' voltage_ramp) = .ok voltages)
    (hrun : run_SLP_measurements voltage_sweep_time voltage_ramp "None" abort_measurements
      clock = .ok r) :
    (∀ k, k < r.currents.length → r.currents.getD k 0 = -(voltages.getD k 0) / 100) ∧
    ((∀ v ∈ voltages, 0 < v) → ∀ c ∈ r.currents, c < 0) := by
  have hlen : voltage_ramp.length ≠ 0 := by
    intro h0
    rw [run_SLP_measurements] at hrun
    rw [if_pos (by simp [h0])] at hrun
    exact absurd hrun (by simp)
  have hshape := run_SLP_none_ok voltage_sweep_time voltage_ramp abort_measurements clock
    voltages hlen hparse
  have hr := Except.ok.inj (hshape.symm.trans hrun)
  obtain ⟨n, hn⟩ := slpLoopNone_currents_take clock abort_measurements voltages 0
  have hcur : r.currents = (voltages.take n).map (fun v => v * -2 / shunt_resistor) := by
    rw [← hr, hn]
  constructor
  · intro k hk
    rw [hcur] at hk ⊢
    simp only [List.length_map, List.length_take, lt_min_iff] at hk
    rw [List.getD_eq_getElem?_getD, List.getElem?_map, List.getElem?_take_of_lt hk.1,
      List.getElem?_eq_getElem hk.2]
    rw [List.getD_eq_getElem?_getD, List.getElem?_eq_getElem hk.2]
    simp [shunt_resistor]
    ring
  · intro hpos c hc
    rw [hcur] at hc
    obtain ⟨v, hv, hvc⟩ := List.mem_map.mp hc
    have hvmem : v ∈ voltages := List.mem_of_mem_take hv
    have hvpos := hpos v hvmem
    rw [← hvc]
    apply div_neg_of_neg_of_pos
    · exact mul_neg_of_pos_of_neg hvpos (by norm_num)
    · norm_num [shunt_resistor]

/-- C10, witness: the sweep over the positive ramp `"1,2,3"` publishes
`-1/100, -1/50, -3/100`; the second sample equals `-voltage_1 / 100` and every
published current is negative. -/
theorem C10_witness :
    c10Run.currents.getD 1 0 = -(([1, 2, 3] : List ℚ).getD 1 0) / 100 ∧
    ∀ c ∈ c10Run.currents, c < 0 := by
  have hparse : parse_float_list (pySplit ',' "1,2,3") = .ok [1, 2, 3] := by
    simp [parse_float_list, pySplit, splitOnChar, mapExcept, pyFloat, pyFloatBody,
      isDigits, digitsToNat]
  have hrun : run_SLP_measurements 6 "1,2,3" "None" (fun _ => false) (fun _ => "t") =
      .ok c10Run := by
    rw [run_SLP_none_ok 6 "1,2,3" (fun _ => false) (fun _ => "t") [1, 2, 3] (by decide) hparse]
    norm_num [slpLoopNone, shunt_resistor, c10Run]
  have h := C10_current_formula 6 "1,2,3" (fun _ => false) (fun _ => "t") [1, 2, 3] c10Run
    hparse hrun
  refine ⟨h.1 1 (by norm_num [c10Run]), ?_⟩
  exact h.2 (by intro v hv; fin_cases hv <;> norm_num)
